import Mathlib

/-!
# Verification of the pye-cli reward-reconciliation core

Shallow embedding of the reconciliation pipeline of `pye-cli`
(`src/cli/src/...`): the three pure excess-commission calculators, stake
resolution, per-slot block-reward fetching with retry, and the two command
drivers (the always-on manager loop and the one-shot transfer command).

Machine integers are modelled as `Nat`/`Int` with explicit reduction
modulo `2^64` (resp. `2^16`) where Rust release-mode wrapping applies;
`as i64` casts are modelled by a two's-complement reinterpretation.
External RPC / HTTP collaborators are modelled as oracle structures whose
fields give the outcome of each call.
-/

namespace PyeCli

/-- `2^64`, the modulus of Rust `u64` arithmetic. -/
def U64 : Nat := 18446744073709551616

/-- `2^63`, the first `u64` value that reinterprets as a negative `i64`. -/
def I63 : Nat := 9223372036854775808

/-- `2^16`, the modulus of Rust `u16` arithmetic. -/
def U16 : Nat := 65536

/-- Reduction of a natural into the `u64` range (Rust wrapping multiplication /
addition results). -/
def wrap64 (n : Nat) : Nat := n % U64

/-- Rust `u64` wrapping subtraction `a - b`. -/
def wsub64 (a b : Nat) : Nat := (a % U64 + (U64 - b % U64)) % U64

/-- Rust `u16` wrapping subtraction `a - b`. -/
def wsub16 (a b : Nat) : Nat := (a % U16 + (U16 - b % U16)) % U16

/-- Reinterpretation of a `u64` bit pattern as an `i64` (Rust `as i64`). -/
def i64ofU64 (n : Nat) : Int :=
  if n % U64 < I63 then ((n % U64 : Nat) : Int) else ((n % U64 : Nat) : Int) - (U64 : Int)

/-- Normalisation of an integer into the `i64` value range (two's complement). -/
def iwrap64 (z : Int) : Int := i64ofU64 (z % (U64 : Int)).toNat

/-- Rust `i64` (wrapping) addition. -/
def iadd64 (a b : Int) : Int := iwrap64 (a + b)

/-- Rust `i64` (wrapping) subtraction. -/
def isub64 (a b : Int) : Int := iwrap64 (a - b)

/-- `RewardCommissions` (from `pye_core_cpi`): the three promised commission
rates in basis points, each a `u16` on the wire. -/
structure RewardCommissions where
  inflation_bps : Nat
  mev_tips_bps : Nat
  block_rewards_bps : Nat
  deriving DecidableEq, Repr

/-- `compute_excess_inflation_commission`
(`src/cli/src/rewards/inflation_rewards.rs:13-22`).

`total_reward = amount_after_commission * 100 / (100 - commission_rate)` in
`u64`; the two commission figures are cast `as i64` and subtracted.
(`commission_rate == 100` makes the source divide by zero, which panics;
Lean's total division returns a value there instead. The panic is
modelled explicitly by `get_excess_inflation_reward_panicking`; the
claims that use this totalized function either restrict
`commission_rate < 100` or do not depend on the aborted run's value.) -/
def compute_excess_inflation_commission
    (amount_after_commission commission_rate expected_bps : Nat) : Int :=
  let total_reward := wrap64 (amount_after_commission * 100) / wsub64 100 commission_rate
  let actual_commission := i64ofU64 (wsub64 total_reward amount_after_commission)
  let expected_commission := i64ofU64 (wrap64 (total_reward * expected_bps) / 10000)
  isub64 actual_commission expected_commission

/-- `compute_excess_block_commission`
(`src/cli/src/rewards/block_rewards.rs:22-39`).

The pro-rata share is computed in a `u128` intermediate and truncated
`as u64`; `10000 - block_rewards_bps` is `u16` arithmetic; the final value
is cast `as i64`. -/
def compute_excess_block_commission
    (total_block_reward pye_account_active_stake validator_active_stake
      block_rewards_bps : Nat) : Int :=
  if validator_active_stake = 0 then 0
  else
    let pye_account_block_reward :=
      wrap64 (pye_account_active_stake * total_block_reward / validator_active_stake)
    i64ofU64 (wrap64 (pye_account_block_reward * wsub16 10000 block_rewards_bps) / 10000)

/-- `compute_excess_mev_commission`
(`src/cli/src/rewards/mev_rewards.rs:32-65`).

Share in a `u128` intermediate truncated `as u64`; `taken` and `due` are
`u64` products divided by 10000 and cast `as i64`; result is their `i64`
difference. `validator_mev_commission_bps` is a `u64` in the source. -/
def compute_excess_mev_commission
    (total_mev_rewards pye_account_active_stake validator_active_stake
      validator_mev_commission_bps expected_mev_commission_bps : Nat) : Int :=
  if validator_active_stake = 0 then 0
  else
    let pye_account_mev_reward :=
      wrap64 (pye_account_active_stake * total_mev_rewards / validator_active_stake)
    let mev_commission_taken :=
      i64ofU64 (wrap64 (pye_account_mev_reward * validator_mev_commission_bps) / 10000)
    let expected_mev_commission :=
      i64ofU64 (wrap64 (pye_account_mev_reward * expected_mev_commission_bps) / 10000)
    isub64 mev_commission_taken expected_mev_commission

/-! ## The RPC environment and stake resolution (`src/cli/src/active_stake.rs`) -/

/-- Account addresses; `Pubkey::default()` (all zeros) is modelled by `0`. -/
abbrev Pubkey : Type := Nat

/-- A prefix test on strings, modelling `Regex::new(r"^AccountNotFound").is_match`
and similar anchored regex matches from the source. -/
def strHasPrefixStr (p s : String) : Bool := p.data.isPrefixOf s.data

/-- The `StakeActivationStatus` returned by the external
`delegation.stake_activating_and_deactivating(target_epoch, stake_history, None)`
(solana-stake-program). Treated as an oracle value attached to the account's
delegation, as a function of the target epoch. -/
structure StakeActivationStatus where
  effective : Nat
  activating : Nat
  deactivating : Nat

/-- `StakeActivationState` (solana-client). -/
inductive StakeActivationState where
  | activating
  | active
  | deactivating
  | inactive
  deriving DecidableEq

/-- The result type of `fetch_stake_for_epoch` (`active_stake.rs:12-17`). -/
structure StakeActivation where
  state : StakeActivationState
  active : Nat
  inactive : Nat
  deriving DecidableEq

/-- The part of a deserialized `StakeStateV2` the core reads: whether
`delegation()` is present, whether `meta()` is present (carrying the
rent-exempt reserve), and the oracle for the external activation
computation at a given epoch. -/
structure StakeStateV2 where
  delegated : Bool
  meta : Option Nat
  activationAt : Nat → StakeActivationStatus

/-- A fetched account: its lamport balance and the outcome of
`deserialize_data::<StakeStateV2>()`. -/
structure Account where
  lamports : Nat
  stakeState : Except Unit StakeStateV2

/-- The shape of a `solana_client` error, as far as the core inspects it:
an `RpcError::RpcResponseError` carries a message that is regex-matched;
every other shape is handled uniformly. -/
inductive ClientErrorKind where
  | rpcResponseError (message : String)
  | otherRpcError
  | otherKind

/-- One entry of a `get_inflation_reward` response
(`RpcInflationReward`): amount, post balance and optional commission. -/
structure RpcInflationReward where
  amount : Nat
  post_balance : Nat
  commission : Option Nat
  deriving DecidableEq

/-- Oracle for the ledger RPC calls made by stake resolution and the
inflation-excess calculation. `getInflationReward key epoch` is the
response to `get_inflation_reward(&[key], Some(epoch))` (a list with one
optional record per requested address). `stakeHistoryOk` is whether
`fetch_stake_history` succeeds. -/
structure RpcEnv where
  getAccount : Pubkey → Except ClientErrorKind Account
  getInflationReward : Pubkey → Nat → Except Unit (List (Option RpcInflationReward))
  stakeHistoryOk : Bool

/-- `fetch_stake_for_epoch` (`active_stake.rs:19-57`): requires a delegation
and a meta (rent-exempt reserve), fetches the stake history, derives the
activation state and the inactive balance
(`lamports.saturating_sub(effective).saturating_sub(rent_exempt_reserve)`,
saturating subtraction being `Nat` truncated subtraction). -/
def fetch_stake_for_epoch (env : RpcEnv) (stake_account : Account)
    (stake_state : StakeStateV2) (target_epoch : Nat) : Except String StakeActivation :=
  if stake_state.delegated = false then .error "Stake is not delegated"
  else
    match stake_state.meta with
    | none => .error "No rent exempt reserve data for stake found"
    | some rent_exempt_reserve =>
      if env.stakeHistoryOk = false then .error "Failed to fetch StakeHistory"
      else
        let st := stake_state.activationAt target_epoch
        let state :=
          if st.deactivating > 0 then StakeActivationState.deactivating
          else if st.activating > 0 then StakeActivationState.activating
          else if st.effective > 0 then StakeActivationState.active
          else StakeActivationState.inactive
        let inactive := stake_account.lamports - st.effective - rent_exempt_reserve
        .ok { state := state, active := st.effective, inactive := inactive }

/-- `fetch_pye_account_active_stake` (`active_stake.rs:59-170`).

Rejects `target_epoch != current_epoch - 1` (`u64` subtraction). An
`AccountNotFound` RPC response for the primary stake account short-circuits
to `Ok(0)`; any other fetch failure is an error. The per-account stake is
`active - reward` when `active >= reward`, else the wrapping
`post_balance - reward` fallback. When the transient key is set
(not `Pubkey::default()`), the transient account is fetched (any failure,
including not-found, is an error) and — exactly as in the source at
`active_stake.rs:139-140` — the inflation-reward record used for the
transient subtraction is fetched for the PRIMARY `stake_account_key`.
The empty-response indexing `maybe_inflation_rewards[0]` panics in the
source; the panic is modelled as a distinguished error. -/
def fetch_pye_account_active_stake (env : RpcEnv)
    (stake_account_key transient_stake_account_key : Pubkey)
    (target_epoch current_epoch : Nat) : Except String Nat :=
  if target_epoch ≠ wsub64 current_epoch 1 then .error "Unsupported target epoch delta"
  else
    match env.getAccount stake_account_key with
    | .error e =>
      match e with
      | .rpcResponseError message =>
        if strHasPrefixStr "AccountNotFound" message then .ok 0
        else .error "Failed to fetch StakeAccount"
      | _ => .error "Failed to fetch StakeAccount"
    | .ok stake_account =>
      match stake_account.stakeState with
      | .error _ => .error "failed to deserialize StakeStateV2"
      | .ok stake_state =>
        match env.getInflationReward stake_account_key target_epoch with
        | .error _ => .error "failed to fetch inflation reward"
        | .ok maybe_inflation_rewards =>
          match maybe_inflation_rewards with
          | [] => .error "panic: index out of bounds"
          | first :: _ =>
            let ir := match first with
              | some x => (x.amount, x.post_balance)
              | none => (0, 0)
            match fetch_stake_for_epoch env stake_account stake_state target_epoch with
            | .error e => .error e
            | .ok active_stake_for_current_epoch =>
              let pye_account_active_stake :=
                if active_stake_for_current_epoch.active ≥ ir.1 then
                  active_stake_for_current_epoch.active - ir.1
                else wsub64 ir.2 ir.1
              if transient_stake_account_key ≠ (0 : Pubkey) then
                match env.getAccount transient_stake_account_key with
                | .error _ => .error "Failed to fetch Transient StakeAccount"
                | .ok transient_account =>
                  match transient_account.stakeState with
                  | .error _ => .error "failed to deserialize StakeStateV2"
                  | .ok transient_state =>
                    match fetch_stake_for_epoch env transient_account transient_state target_epoch with
                    | .error e => .error e
                    | .ok transient_amount =>
                      -- source refetches the PRIMARY key's inflation reward here
                      match env.getInflationReward stake_account_key target_epoch with
                      | .error _ => .error "failed to fetch inflation reward"
                      | .ok l2 =>
                        match l2 with
                        | [] => .error "panic: index out of bounds"
                        | f2 :: _ =>
                          let ir2 := match f2 with
                            | some x => (x.amount, x.post_balance)
                            | none => (0, 0)
                          let transient_stake_at_target_epoch :=
                            if transient_amount.active ≥ ir2.1 then
                              transient_amount.active - ir2.1
                            else wsub64 ir2.2 ir2.1
                          .ok (wrap64 (pye_account_active_stake + transient_stake_at_target_epoch))
              else .ok pye_account_active_stake

/-! ## Inflation excess (`src/cli/src/rewards/inflation_rewards.rs`) -/

/-- `get_excess_inflation_reward` (`inflation_rewards.rs:24-55`): fetch the
inflation reward for one address; empty response is an error; a missing
record (account still activating) yields 0; a record without commission
data is an error. -/
def get_excess_inflation_reward (env : RpcEnv) (address : Pubkey)
    (target_epoch : Nat) (reward_commissions : RewardCommissions) : Except String Int :=
  match env.getInflationReward address target_epoch with
  | .error _ => .error "Failed to fetch inflation reward"
  | .ok inflation_rewards =>
    match inflation_rewards with
    | [] => .error "No inflation rewards found"
    | first :: _ =>
      match first with
      | some reward =>
        match reward.commission with
        | none => .error "Commission data missing"
        | some commission_rate =>
          .ok (compute_excess_inflation_commission reward.amount commission_rate
            reward_commissions.inflation_bps)
      | none => .ok 0

/-- `calculate_excess_inflation_reward` (`inflation_rewards.rs:57-106`):
infallible; each per-account failure degrades to a 0 contribution; the
transient contribution is 0 when the transient key is the sentinel
`Pubkey::default()`; the result is the `i64` sum of the two contributions. -/
def calculate_excess_inflation_reward (env : RpcEnv)
    (stake_pubkey transient_pubkey : Pubkey) (target_epoch : Nat)
    (reward_commissions : RewardCommissions) : Int :=
  let excess_stake_inflation_commission :=
    match get_excess_inflation_reward env stake_pubkey target_epoch reward_commissions with
    | .ok amount => amount
    | .error _ => 0
  let excess_transient_inflation_commission :=
    if transient_pubkey ≠ (0 : Pubkey) then
      match get_excess_inflation_reward env transient_pubkey target_epoch reward_commissions with
      | .ok amount => amount
      | .error _ => 0
    else 0
  iadd64 excess_stake_inflation_commission excess_transient_inflation_commission

/-! ## Block rewards (`src/cli/src/rpc_utils.rs`, `src/cli/src/rewards/block_rewards.rs`) -/

/-- `slot_history::Check` (solana-sdk): membership of a slot in the
`SlotHistory` sysvar. -/
inductive SlotCheck where
  | future
  | notFound
  | tooOld
  | found
  deriving DecidableEq

/-- The `SlotHistory` sysvar, reduced to its membership check. -/
structure SlotHistoryModel where
  check : Nat → SlotCheck

/-- The raw outcome of one `get_block_with_config` RPC call, as far as
`get_block` inspects it. -/
inductive RawClientResult (α : Type) where
  | ok (a : α)
  | rpcResponseError (message : String)
  | otherRpcError
  | otherClientError

/-- `RewardType` (solana-sdk). -/
inductive RewardType where
  | fee
  | rent
  | staking
  | voting
  deriving DecidableEq

/-- One reward entry of a confirmed block. `lamports` is an `i64` in the
source. -/
structure RewardEntry where
  pubkey : String
  lamports : Int
  reward_type : Option RewardType
  deriving DecidableEq

/-- `UiConfirmedBlock`, reduced to its optional reward list. -/
structure UiConfirmedBlock where
  rewards : Option (List RewardEntry)
  deriving DecidableEq

/-- `PriorityFeeKeeperError` (`rpc_utils.rs:18-34`). -/
inductive PriorityFeeKeeperError where
  | solanaClientError
  | rpcError
  | errorGettingLeaderSchedule
  | skippedBlock
  | missingVoteKey (s : String)
  | slotInFuture (slot : Nat)
  | inSlotHistoryNotOnRpc (slot : Nat)
  deriving DecidableEq

/-- The anchored regex `^Slot [\d]+ was skipped` of `rpc_utils.rs:72`
(ASCII digits, one or more, then the literal continuation). -/
def slotSkippedMatch (message : String) : Bool :=
  "Slot ".data.isPrefixOf message.data &&
    (let rest := message.data.drop 5
     !(rest.takeWhile Char.isDigit).isEmpty &&
       " was skipped".data.isPrefixOf (rest.dropWhile Char.isDigit))

/-- `get_block` (`rpc_utils.rs:38-99`): propagates a successful block;
cross-checks a slot-skipped RPC response message against the slot-history
membership (`Future` ⇒ `SlotInFuture`, `NotFound` ⇒ `SkippedBlock`,
`TooOld`/`Found` ⇒ `InSlotHistoryNotOnRpc`); every other error is passed
through as an RPC / client error. -/
def get_block (block_res : RawClientResult UiConfirmedBlock) (slot : Nat)
    (slot_history : SlotHistoryModel) : Except PriorityFeeKeeperError UiConfirmedBlock :=
  match block_res with
  | .ok block => .ok block
  | .rpcResponseError message =>
    if slotSkippedMatch message then
      match slot_history.check slot with
      | .future => .error (.slotInFuture slot)
      | .notFound => .error .skippedBlock
      | .tooOld => .error (.inSlotHistoryNotOnRpc slot)
      | .found => .error (.inSlotHistoryNotOnRpc slot)
    else .error .rpcError
  | .otherRpcError => .error .rpcError
  | .otherClientError => .error .solanaClientError

/-- The fee total a block contributes for the leader's node identity
(`block_rewards.rs:106-116`): sum the `lamports as u64` of reward entries
whose pubkey matches and whose type is `Fee` (`u64` wrapping addition). -/
def block_fee_total (block : UiConfirmedBlock) (node_identity : String) : Nat :=
  match block.rewards with
  | none => 0
  | some rewards =>
    rewards.foldl (fun total r =>
      if r.pubkey = node_identity then
        match r.reward_type with
        | some RewardType.fee => wrap64 (total + (r.lamports.emod (U64 : Int)).toNat)
        | _ => total
      else total) 0

/-- The per-slot retry loop of `calculate_block_rewards`
(`block_rewards.rs:101-143`). `fetchRaw a` is the raw outcome of the
`a`-th `get_block` RPC call for this slot (attempts are counted from 1 as
in the source); a successful block resolves to `some` fee total, a
confirmed skip (`SkippedBlock`) resolves to `none` with no retry, and any
other error is retried until `attempts >= 5`, then fails. -/
def fetch_slot_fee (fetchRaw : Nat → RawClientResult UiConfirmedBlock) (slot : Nat)
    (slot_history : SlotHistoryModel) (node_identity : String)
    (attempts : Nat) : Except String (Option Nat) :=
  match get_block (fetchRaw (attempts + 1)) slot slot_history with
  | .ok block => .ok (some (block_fee_total block node_identity))
  | .error e =>
    match e with
    | .skippedBlock => .ok none
    | _ =>
      if _h : 5 ≤ attempts + 1 then .error "Failed to fetch block"
      else fetch_slot_fee fetchRaw slot slot_history node_identity (attempts + 1)
termination_by 5 - attempts
decreasing_by simp_wf; omega

/-- The combining closure of the result fold of `calculate_block_rewards`
(`block_rewards.rs:147-152`): `u64` sum of resolved fees
(`fee.unwrap_or(0)`), any error propagating. -/
def block_fee_fold_step (acc : Except String Nat)
    (fee_result : Except String (Option Nat)) : Except String Nat :=
  match acc, fee_result with
  | .ok acc_val, .ok fee => .ok (wrap64 (acc_val + fee.getD 0))
  | .error e, _ => .error e
  | .ok _, .error e => .error e

/-- The result fold of `calculate_block_rewards` (`block_rewards.rs:147-153`). -/
def aggregate_block_fees (results : List (Except String (Option Nat))) : Except String Nat :=
  results.foldl block_fee_fold_step (.ok 0)

/-- `EpochInfo` (solana-sdk), reduced to the fields the core reads. -/
structure EpochInfo where
  epoch : Nat
  absolute_slot : Nat
  slot_index : Nat
  slots_in_epoch : Nat
  deriving DecidableEq

/-- Oracle for the RPC calls of `calculate_block_rewards`:
the vote-account roster (pairs of vote pubkey and node pubkey), the leader
schedule for a node identity and epoch-start slot, the `SlotHistory`
sysvar fetch, and the raw per-slot per-attempt block fetches. -/
structure BlockEnv where
  vote_accounts : Except Unit (List (String × String))
  leader_schedule : String → Nat → Except Unit (Option (String → Option (List Nat)))
  slot_history : Except Unit SlotHistoryModel
  fetchRaw : Nat → Nat → RawClientResult UiConfirmedBlock

/-- `calculate_block_rewards` (`block_rewards.rs:42-156`): map the vote
identity to the node identity (absence fatal), compute the first slot of
the previous epoch (saturating subtractions), restrict the leader schedule
to the node, fetch the slot history, resolve every assigned slot through
the bounded retry loop and fold the results. (The source fans the slot
fetches out with `buffer_unordered`; the fold's total is
order-independent, and an exhausted slot fails the whole aggregation in
any order.) -/
def calculate_block_rewards (benv : BlockEnv) (vote_pubkey : String)
    (epoch_info : EpochInfo) : Except String Nat :=
  match benv.vote_accounts with
  | .error _ => .error "Failed to fetch vote accounts"
  | .ok current =>
    match current.find? (fun va => va.1 = vote_pubkey) with
    | none => .error "Validator with vote pubkey not found"
    | some va =>
      let node_identity := va.2
      let first := epoch_info.absolute_slot - epoch_info.slot_index - epoch_info.slots_in_epoch
      match benv.leader_schedule node_identity first with
      | .error _ => .error "Failed to fetch leader schedule"
      | .ok none => .error "Leader schedule not found for node"
      | .ok (some schedule) =>
        match schedule node_identity with
        | none => .error "Err looking up leader schedule"
        | some indices =>
          let slots := indices.map (fun i => wrap64 (first + i))
          match benv.slot_history with
          | .error _ => .error "Failed to fetch SlotHistory"
          | .ok slot_history =>
            aggregate_block_fees (slots.map (fun slot =>
              fetch_slot_fee (benv.fetchRaw slot) slot slot_history node_identity 0))

/-- `calculate_excess_block_reward` (`block_rewards.rs:158-204`): never an
error — zero validator stake short-circuits to 0 and an aggregation
failure degrades to a 0 contribution. -/
def calculate_excess_block_reward (benv : BlockEnv) (vote_pubkey : String)
    (epoch_info : EpochInfo) (pye_account_active_stake validator_active_stake : Nat)
    (reward_commissions : RewardCommissions) : Except String Int :=
  if validator_active_stake = 0 then .ok 0
  else
    match calculate_block_rewards benv vote_pubkey epoch_info with
    | .ok amount =>
      .ok (compute_excess_block_commission amount pye_account_active_stake
        validator_active_stake reward_commissions.block_rewards_bps)
    | .error _ => .ok 0

/-! ## MEV rewards (`src/cli/src/rewards/mev_rewards.rs`) -/

/-- `ValidatorInfo` (`mev_rewards.rs:10-17`): one record of the external
MEV dataset. -/
structure ValidatorInfo where
  vote_account : String
  mev_commission_bps : Nat
  mev_rewards : Nat
  running_jito : Bool
  active_stake : Nat
  deriving DecidableEq

/-- `calculate_excess_mev_reward` (`mev_rewards.rs:147-167`): 0 when the
validator does not run the relay, else the pure MEV excess formula on the
dataset record. -/
def calculate_excess_mev_reward (mev_data : ValidatorInfo)
    (pye_account_active_stake : Nat) (reward_commissions : RewardCommissions) : Int :=
  if mev_data.running_jito = false then 0
  else
    compute_excess_mev_commission mev_data.mev_rewards pye_account_active_stake
      mev_data.active_stake mev_data.mev_commission_bps reward_commissions.mev_tips_bps

/-! ## Command drivers (`src/cli/src/commands/...`) -/

/-- `SoloValidatorBond` (aliased `SoloValidatorPyeAccount`), reduced to the
fields the reconciliation reads. `validator_vote_account` is consulted by
the one-shot command only. -/
structure SoloValidatorPyeAccount where
  stake_account : Pubkey
  transient_stake_account : Pubkey
  reward_commissions : RewardCommissions
  validator_vote_account : String
  deriving DecidableEq

/-- The per-account excess computed inside the manager loop
(`validator_pye_account_manager.rs:171-204`): resolve the stake (a failure
propagates), then sum the inflation, block and MEV excesses with `i64`
additions in source order
(`excess_inflation_reward + excess_block_commission + excess_mev_commission`);
the block excess uses the validator-wide total and the MEV record's
`active_stake` as validator stake. -/
def manager_account_excess (env : RpcEnv) (mev_data : ValidatorInfo)
    (validators_total_block_rewards : Nat) (pye_account : SoloValidatorPyeAccount)
    (target_epoch current_epoch : Nat) : Except String Int :=
  match fetch_pye_account_active_stake env pye_account.stake_account
      pye_account.transient_stake_account target_epoch current_epoch with
  | .error e => .error e
  | .ok pye_account_active_stake =>
    .ok (iadd64
      (iadd64
        (calculate_excess_inflation_reward env pye_account.stake_account
          pye_account.transient_stake_account target_epoch
          pye_account.reward_commissions)
        (compute_excess_block_commission validators_total_block_rewards
          pye_account_active_stake mev_data.active_stake
          pye_account.reward_commissions.block_rewards_bps))
      (calculate_excess_mev_reward mev_data pye_account_active_stake
        pye_account.reward_commissions))

/-- A settlement-transfer request handed to `transfer_excess_rewards`:
the account's pubkey, its record, and the lamport amount. -/
abbrev TransferRequest := Pubkey × SoloValidatorPyeAccount × Nat

/-- The per-account loop of the manager cycle
(`validator_pye_account_manager.rs:171-245`), with the transfer side
effect reified as the list of requests issued. A stake-resolution or
transfer failure aborts the loop (`?` in the source): the error is
returned and no later account is processed. An account whose summed
excess is `<= 0` is passed over; in dry-run mode no transfer is issued. -/
def manager_process_accounts (env : RpcEnv)
    (transfer : Pubkey → SoloValidatorPyeAccount → Nat → Except Unit Unit)
    (mev_data : ValidatorInfo) (validators_total_block_rewards : Nat)
    (target_epoch current_epoch : Nat) (dry_run : Bool) :
    List (Pubkey × SoloValidatorPyeAccount) → List TransferRequest × Option String
  | [] => ([], none)
  | (pye_account_pubkey, pye_account) :: rest =>
    match manager_account_excess env mev_data validators_total_block_rewards
        pye_account target_epoch current_epoch with
    | .error e => ([], some e)
    | .ok excess_rewards =>
      if excess_rewards ≤ 0 then
        manager_process_accounts env transfer mev_data validators_total_block_rewards
          target_epoch current_epoch dry_run rest
      else if dry_run then
        manager_process_accounts env transfer mev_data validators_total_block_rewards
          target_epoch current_epoch dry_run rest
      else
        match transfer pye_account_pubkey pye_account excess_rewards.toNat with
        | .error _ =>
          ([(pye_account_pubkey, pye_account, excess_rewards.toNat)],
            some "Failed to transfer excess rewards")
        | .ok _ =>
          let tail := manager_process_accounts env transfer mev_data
            validators_total_block_rewards target_epoch current_epoch dry_run rest
          ((pye_account_pubkey, pye_account, excess_rewards.toNat) :: tail.1, tail.2)

/-- Oracle for the cycle-level collaborators of the manager: the ledger
RPC, the block-reward RPC, the outcome of `fetch_and_filter_mev_data`, and
the settlement executor. -/
structure ManagerEnv where
  rpc : RpcEnv
  benv : BlockEnv
  mev_result : Except Unit ValidatorInfo
  transfer : Pubkey → SoloValidatorPyeAccount → Nat → Except Unit Unit

/-- One reconciliation cycle of `handle_validator_pye_account_manager`
(`validator_pye_account_manager.rs:129-246`), from the epoch-boundary
detection onward, over the already-enumerated and maturity-filtered
roster. The MEV fetch and the validator-wide `calculate_block_rewards`
both sit under `?` in the source: either failure aborts the cycle before
any account is processed. -/
def manager_run_cycle (menv : ManagerEnv) (vote_pubkey : String)
    (epoch_info : EpochInfo) (dry_run : Bool)
    (active_pye_accounts : List (Pubkey × SoloValidatorPyeAccount)) :
    List TransferRequest × Option String :=
  match menv.mev_result with
  | .error _ => ([], some "Failed to fetch MEV data")
  | .ok mev_data =>
    match calculate_block_rewards menv.benv vote_pubkey epoch_info with
    | .error e => ([], some e)
    | .ok validators_total_block_rewards =>
      manager_process_accounts menv.rpc menv.transfer mev_data
        validators_total_block_rewards (wsub64 epoch_info.epoch 1)
        epoch_info.epoch dry_run active_pye_accounts

/-- Oracle for the collaborators of the one-shot command
`handle_transfer_excess_rewards`: the account fetch, epoch info, the MEV
fetch, the ledger RPC, the block RPC, the interactive confirmation and
the settlement executor. -/
structure OneShotEnv where
  rpc : RpcEnv
  benv : BlockEnv
  pye_account_result : Except Unit SoloValidatorPyeAccount
  epoch_info_result : Except Unit EpochInfo
  mev_result : Except Unit ValidatorInfo
  confirm : Bool
  transfer : Pubkey → SoloValidatorPyeAccount → Nat → Except Unit Unit

/-- The settle-or-skip tail of `handle_transfer_excess_rewards`
(`transfer_excess_rewards.rs:103-137`): summed excess `<= 0` returns
without transferring; dry-run returns before the prompt; a declined
prompt returns without transferring; otherwise the transfer is requested,
and a transfer failure is reported after the request was made. -/
def oneshot_settle_gate
    (transfer : Pubkey → SoloValidatorPyeAccount → Nat → Except Unit Unit)
    (confirm : Bool) (pye_account_pubkey : Pubkey)
    (pye_account : SoloValidatorPyeAccount) (excess_rewards : Int)
    (dry_run : Bool) : Option (Pubkey × Nat) × Option String :=
  if excess_rewards ≤ 0 then (none, none)
  else if dry_run then (none, none)
  else if confirm then
    match transfer pye_account_pubkey pye_account excess_rewards.toNat with
    | .ok _ => (some (pye_account_pubkey, excess_rewards.toNat), none)
    | .error _ =>
      (some (pye_account_pubkey, excess_rewards.toNat),
        some "Failed to transfer excess rewards")
  else (none, none)

/-- The reconciliation body of `handle_transfer_excess_rewards`
(`transfer_excess_rewards.rs:46-101`): stake resolution (under `?`), the
three excess calculators, the `i64` sum in source order
(`excess_inflation_reward + excess_block_commission + excess_mev_commission`),
then the settle gate. -/
def oneshot_reconcile (env : OneShotEnv) (pye_account_pubkey : Pubkey)
    (pye_account : SoloValidatorPyeAccount) (epoch_info : EpochInfo)
    (mev_data : ValidatorInfo) (dry_run : Bool) :
    Option (Pubkey × Nat) × Option String :=
  match fetch_pye_account_active_stake env.rpc pye_account.stake_account
      pye_account.transient_stake_account (wsub64 epoch_info.epoch 1)
      epoch_info.epoch with
  | .error e => (none, some e)
  | .ok pye_account_active_stake =>
    match calculate_excess_block_reward env.benv pye_account.validator_vote_account
        epoch_info pye_account_active_stake mev_data.active_stake
        pye_account.reward_commissions with
    | .error e => (none, some e)
    | .ok excess_block_commission =>
      oneshot_settle_gate env.transfer env.confirm pye_account_pubkey pye_account
        (iadd64 (iadd64 (calculate_excess_inflation_reward env.rpc
            pye_account.stake_account pye_account.transient_stake_account
            (wsub64 epoch_info.epoch 1) pye_account.reward_commissions)
          excess_block_commission)
          (calculate_excess_mev_reward mev_data pye_account_active_stake
            pye_account.reward_commissions)) dry_run

/-- `handle_transfer_excess_rewards`
(`src/cli/src/commands/transfer_excess_rewards.rs:26-137`), with the
transfer side effect reified: the first component is the request issued
(if any), the second the error the command returns (if any). The account
fetch, epoch-info fetch and MEV fetch all sit under `?`; the rest is
`oneshot_reconcile`. -/
def handle_transfer_excess_rewards (env : OneShotEnv) (pye_account_pubkey : Pubkey)
    (dry_run : Bool) : Option (Pubkey × Nat) × Option String :=
  match env.pye_account_result with
  | .error _ => (none, some "Failed to fetch SoloValidatorPyeAccount")
  | .ok pye_account =>
    match env.epoch_info_result with
    | .error _ => (none, some "Failed to fetch epoch info")
    | .ok epoch_info =>
      match env.mev_result with
      | .error _ => (none, some "Failed to fetch MEV data")
      | .ok mev_data =>
        oneshot_reconcile env pye_account_pubkey pye_account epoch_info mev_data
          dry_run

/-! ## Arithmetic helper lemmas -/

theorem wrap64_eq {n : Nat} (h : n < U64) : wrap64 n = n := by
  simp only [wrap64]
  exact Nat.mod_eq_of_lt h

theorem wsub64_eq {a b : Nat} (hba : b ≤ a) (ha : a < U64) : wsub64 a b = a - b := by
  simp only [wsub64, U64] at *
  omega

theorem wsub16_eq {a b : Nat} (hba : b ≤ a) (ha : a < U16) : wsub16 a b = a - b := by
  simp only [wsub16, U16] at *
  omega

theorem i64ofU64_eq {n : Nat} (h : n < I63) : i64ofU64 n = (n : Int) := by
  have hU : n < U64 := by simp only [U64, I63] at *; omega
  simp only [i64ofU64, Nat.mod_eq_of_lt hU, if_pos h]

theorem isub64_eq {x y : Int} (hx0 : 0 ≤ x) (hx : x < ((I63 : Nat) : Int))
    (hy0 : 0 ≤ y) (hy : y < ((I63 : Nat) : Int)) : isub64 x y = x - y := by
  simp only [isub64, iwrap64, i64ofU64, U64, I63] at *
  push_cast at *
  split <;> omega

theorem iadd64_eq {x y : Int} (h1 : -((I63 : Nat) : Int) ≤ x + y)
    (h2 : x + y < ((I63 : Nat) : Int)) : iadd64 x y = x + y := by
  simp only [iadd64, iwrap64, i64ofU64, U64, I63] at *
  push_cast at *
  split <;> omega

theorem isub64_self (x : Int) : isub64 x x = 0 := by
  simp [isub64, iwrap64, i64ofU64, U64, I63]

/-- In-range equation form of `compute_excess_block_commission`: when the
pro-rata share times 10000 stays below `2^63` and the commission is a
legal basis-point value, the computation is the exact floor formula. -/
theorem compute_excess_block_commission_eq (t s v b : Nat) (hv : 0 < v)
    (hb : b ≤ 10000) (hshareI : s * t / v < I63)
    (hprodU : s * t / v * 10000 < U64) :
    compute_excess_block_commission t s v b =
      ((s * t / v * (10000 - b) / 10000 : Nat) : Int) := by
  have hI63U64 : I63 < U64 := by norm_num [I63, U64]
  have hprod : s * t / v * (10000 - b) ≤ s * t / v * 10000 :=
    Nat.mul_le_mul_left _ (by omega)
  have hquot : s * t / v * (10000 - b) / 10000 ≤ s * t / v := by
    have h2 : s * t / v * (10000 - b) / 10000 ≤ s * t / v * 10000 / 10000 :=
      Nat.div_le_div_right hprod
    set x := s * t / v
    omega
  have hws16 : wsub16 10000 b = 10000 - b := wsub16_eq hb (by norm_num [U16])
  simp only [compute_excess_block_commission, if_neg (by omega : ¬ v = 0), hws16,
    wrap64_eq (lt_trans hshareI hI63U64),
    wrap64_eq (lt_of_le_of_lt hprod hprodU),
    i64ofU64_eq (lt_of_le_of_lt hquot hshareI)]

/-- In-range equation form of `compute_excess_mev_commission`: when the
share fits in `u64` and both commission products stay below `2^63`, the
computation is the exact `taken - due` floor formula. -/
theorem compute_excess_mev_commission_eq (t s v act exp : Nat) (hv : 0 < v)
    (hshareU : s * t / v < U64) (hact : s * t / v * act < I63)
    (hexp : s * t / v * exp < I63) :
    compute_excess_mev_commission t s v act exp =
      ((s * t / v * act / 10000 : Nat) : Int) -
        ((s * t / v * exp / 10000 : Nat) : Int) := by
  have hI63U64 : I63 < U64 := by norm_num [I63, U64]
  have h1 : s * t / v * act / 10000 ≤ s * t / v * act := Nat.div_le_self _ _
  have h2 : s * t / v * exp / 10000 ≤ s * t / v * exp := Nat.div_le_self _ _
  rw [compute_excess_mev_commission, if_neg (by omega : ¬ v = 0)]
  simp only [wrap64_eq hshareU,
    wrap64_eq (lt_trans hact hI63U64), wrap64_eq (lt_trans hexp hI63U64),
    i64ofU64_eq (lt_of_le_of_lt h1 hact), i64ofU64_eq (lt_of_le_of_lt h2 hexp)]
  exact isub64_eq (by positivity) (by exact_mod_cast lt_of_le_of_lt h1 hact)
    (by positivity) (by exact_mod_cast lt_of_le_of_lt h2 hexp)

/-! ## Claim theorems -/

/-- **C2**: for every `amountAfterCommission`, every `actualPercent ∈ [0,100)`
and every `expectedBps ∈ [0,10000]` with intermediate products in range
(here: `amount * 100 * 10000 < 2^63`), `compute_excess_inflation_commission`
returns `actual - expected` where
`total = floor(amount*100/(100-actualPercent))`, `actual = total - amount`
and `expected = floor(total*expectedBps/10000)`; and it returns `0` on
`(900_000, 10, 1000)`, `+20_000` on `(880_000, 12, 1000)` and `-20_000`
on `(920_000, 8, 1000)`. -/
theorem spec_C2_excess_inflation_commission_formula (a r b : Nat)
    (ha : a * 1000000 < I63) (hr : r < 100) (hb : b ≤ 10000) :
    (compute_excess_inflation_commission a r b =
      ((a * 100 / (100 - r) : Nat) : Int) - (a : Int)
        - ((a * 100 / (100 - r) * b / 10000 : Nat) : Int))
    ∧ compute_excess_inflation_commission 900000 10 1000 = 0
    ∧ compute_excess_inflation_commission 880000 12 1000 = 20000
    ∧ compute_excess_inflation_commission 920000 8 1000 = -20000 := by
  refine ⟨?_, by decide, by decide, by decide⟩
  have hI63U64 : I63 < U64 := by norm_num [I63, U64]
  have h100 : a * 100 ≤ a * 1000000 := Nat.mul_le_mul_left a (by norm_num)
  have h100I : a * 100 < I63 := lt_of_le_of_lt h100 ha
  have h100U : a * 100 < U64 := lt_trans h100I hI63U64
  have hws : wsub64 100 r = 100 - r := wsub64_eq (le_of_lt hr) (by norm_num [U64])
  have htle : a * 100 / (100 - r) ≤ a * 100 := Nat.div_le_self _ _
  have htI : a * 100 / (100 - r) < I63 := lt_of_le_of_lt htle h100I
  have hta : a ≤ a * 100 / (100 - r) := by
    have h1 : a * 100 / 100 ≤ a * 100 / (100 - r) :=
      Nat.div_le_div_left (by omega) (by omega)
    omega
  have htbI : a * 100 / (100 - r) * b < I63 := by
    have h1 : a * 100 / (100 - r) * b ≤ a * 100 * 10000 := by
      calc a * 100 / (100 - r) * b ≤ a * 100 * b := Nat.mul_le_mul_right b htle
        _ ≤ a * 100 * 10000 := Nat.mul_le_mul_left (a * 100) hb
    have h2 : a * 100 * 10000 = a * 1000000 := by ring
    omega
  simp only [compute_excess_inflation_commission, hws,
    wrap64_eq h100U, wrap64_eq (lt_trans htbI hI63U64),
    wsub64_eq hta (lt_of_le_of_lt htle h100U),
    i64ofU64_eq (by omega : a * 100 / (100 - r) - a < I63),
    i64ofU64_eq (lt_of_le_of_lt (Nat.div_le_self _ _) htbI)]
  rw [isub64_eq (by positivity) (by exact_mod_cast (by omega : a * 100 / (100 - r) - a < I63))
    (by positivity) (by exact_mod_cast lt_of_le_of_lt (Nat.div_le_self _ _) htbI)]
  have : ((a * 100 / (100 - r) - a : Nat) : Int) =
      ((a * 100 / (100 - r) : Nat) : Int) - (a : Int) := by
    exact_mod_cast Int.ofNat_sub hta
  omega

/-- **C2 witness**: the theorem applied at the concrete input
`(900_000, 10, 1000)`. -/
theorem spec_C2_excess_inflation_commission_formula_witness :
    compute_excess_inflation_commission 900000 10 1000 = 0 :=
  (spec_C2_excess_inflation_commission_formula 900000 10 1000 (by norm_num [I63])
    (by norm_num) (by norm_num)).2.1

/-- **C3 counterexample**: the claim quantifies over every
`totalBlockReward` and `accountStake`, but the source truncates the
`u128` pro-rata share `as u64`. At
`(totalBlockReward, accountStake, validatorStake, bps) = (2^32, 2^32, 1, 0)`
the share is `2^32 * 2^32 / 1 = 2^64`, which truncates to `0`, so the code
returns `0` while the claimed formula
`floor(share*(10000-bps)/10000)` gives `2^64`. -/
theorem spec_C3_counterexample :
    compute_excess_block_commission 4294967296 4294967296 1 0 = 0 ∧
    ((4294967296 * 4294967296 / 1 * (10000 - 0) / 10000 : Nat) : Int) =
      18446744073709551616 := by
  exact ⟨by decide, by norm_num⟩

/-- **C3 (amended)**: `compute_excess_block_commission` returns `0` whenever
`validatorStake = 0`, and — provided the intermediates stay in machine
range, i.e. `floor(accountStake*totalBlockReward/validatorStake) * 10000 < 2^63`
and `expectedBps ≤ 10000` — returns
`floor(share*(10000-expectedBps)/10000)` with
`share = floor(accountStake*totalBlockReward/validatorStake)`; in
particular (under the same proviso) the full share when `expectedBps = 0`,
unconditionally `0` when `expectedBps = 10000`, and `250_000` on
`(1_000_000, 500_000, 1_000_000, 5000)`. -/
theorem spec_C3_amended_excess_block_commission (t s v b : Nat) :
    (v = 0 → compute_excess_block_commission t s v b = 0)
    ∧ (0 < v → b ≤ 10000 → s * t / v * 10000 < I63 →
        compute_excess_block_commission t s v b =
          ((s * t / v * (10000 - b) / 10000 : Nat) : Int))
    ∧ (0 < v → b = 0 → s * t / v * 10000 < I63 →
        compute_excess_block_commission t s v b = ((s * t / v : Nat) : Int))
    ∧ (b = 10000 → compute_excess_block_commission t s v b = 0)
    ∧ compute_excess_block_commission 1000000 500000 1000000 5000 = 250000 := by
  have key : 0 < v → b ≤ 10000 → s * t / v * 10000 < I63 →
      compute_excess_block_commission t s v b =
        ((s * t / v * (10000 - b) / 10000 : Nat) : Int) := by
    intro hv hb hr
    have hI63U64 : I63 < U64 := by norm_num [I63, U64]
    have hshare : s * t / v ≤ s * t / v * 10000 := by
      set x := s * t / v
      omega
    exact compute_excess_block_commission_eq t s v b hv hb
      (lt_of_le_of_lt hshare hr) (lt_trans hr hI63U64)
  refine ⟨?_, key, ?_, ?_, by decide⟩
  · intro hv; simp [compute_excess_block_commission, hv]
  · intro hv hb hr
    rw [key hv (by omega) hr]
    have hx : s * t / v * (10000 - b) / 10000 = s * t / v := by
      subst hb
      set x := s * t / v
      omega
    rw [hx]
  · intro hb
    by_cases hv : v = 0
    · simp [compute_excess_block_commission, hv]
    · subst hb
      simp only [compute_excess_block_commission, if_neg hv]
      have h0 : wsub16 10000 10000 = 0 := wsub16_eq (le_refl _) (by norm_num [U16])
      rw [h0, Nat.mul_zero]
      have h1 : wrap64 0 = 0 := wrap64_eq (by norm_num [U64])
      rw [h1]
      exact i64ofU64_eq (by norm_num [I63])

/-- **C3 witness**: the amended theorem applied at the concrete input
`(1_000_000, 500_000, 1_000_000, 5000)`, discharging the range
hypotheses there. -/
theorem spec_C3_amended_excess_block_commission_witness :
    compute_excess_block_commission 1000000 500000 1000000 5000 =
      ((500000 * 1000000 / 1000000 * (10000 - 5000) / 10000 : Nat) : Int) :=
  (spec_C3_amended_excess_block_commission 1000000 500000 1000000 5000).2.1
    (by norm_num) (by norm_num) (by norm_num [I63])

/-- **C9**: for every `totalBlockReward < 2^50`, `accountStake ≤ validatorStake`
and `blockRewardsBps ≤ 10000`, `compute_excess_block_commission` is never
negative and never exceeds the account's pro-rata share
`floor(accountStake*totalBlockReward/validatorStake)` — the block-reward
stream can only add to a refund, never offset one. -/
theorem spec_C9_block_excess_within_share (t s v b : Nat)
    (hb : b ≤ 10000) (hsv : s ≤ v) (ht : t < 1125899906842624) :
    0 ≤ compute_excess_block_commission t s v b ∧
    compute_excess_block_commission t s v b ≤ ((s * t / v : Nat) : Int) := by
  by_cases hv : v = 0
  · subst hv
    refine ⟨by simp [compute_excess_block_commission], ?_⟩
    simp only [compute_excess_block_commission, if_pos rfl]
    positivity
  · have hshare_t : s * t / v ≤ t := by
      have h1 : s * t ≤ v * t := Nat.mul_le_mul_right t hsv
      have h2 : s * t / v ≤ v * t / v := Nat.div_le_div_right h1
      have h3 : v * t / v = t := Nat.mul_div_cancel_left t (by omega : 0 < v)
      omega
    have hshareI : s * t / v < I63 := by
      simp only [I63]
      omega
    have hprodU : s * t / v * 10000 < U64 := by
      have h1 : s * t / v * 10000 ≤ 1125899906842623 * 10000 :=
        Nat.mul_le_mul_right 10000 (by omega)
      simp only [U64]
      omega
    rw [compute_excess_block_commission_eq t s v b (by omega) hb hshareI hprodU]
    refine ⟨by positivity, ?_⟩
    have hle : s * t / v * (10000 - b) / 10000 ≤ s * t / v := by
      have h1 : s * t / v * (10000 - b) ≤ s * t / v * 10000 :=
        Nat.mul_le_mul_left _ (by omega)
      have h2 : s * t / v * (10000 - b) / 10000 ≤ s * t / v * 10000 / 10000 :=
        Nat.div_le_div_right h1
      set x := s * t / v
      omega
    exact_mod_cast hle

/-- **C9 witness**: the theorem applied at
`(totalBlockReward, accountStake, validatorStake, bps) = (1_000_000, 500_000, 1_000_000, 5000)`. -/
theorem spec_C9_block_excess_within_share_witness :
    0 ≤ compute_excess_block_commission 1000000 500000 1000000 5000 ∧
    compute_excess_block_commission 1000000 500000 1000000 5000 ≤
      ((500000 * 1000000 / 1000000 : Nat) : Int) :=
  spec_C9_block_excess_within_share 1000000 500000 1000000 5000
    (by norm_num) (by norm_num) (by norm_num)

/-- **C8 counterexample**: the claim asserts a strictly negative result
whenever `actualBps < expectedBps` and `validatorStake > 0`, but at
`(totalMevReward, accountStake, validatorStake, actualBps, expectedBps)
 = (0, 1, 1, 0, 500)` the pro-rata share is `0`, so both floor terms are
`0` and the code returns `0`, not a negative value. -/
theorem spec_C8_counterexample :
    compute_excess_mev_commission 0 1 1 0 500 = 0 ∧
    ¬ compute_excess_mev_commission 0 1 1 0 500 < 0 := by
  exact ⟨by decide, by decide⟩

/-- **C8 (amended)**: `compute_excess_mev_commission` returns `0` when
`validatorStake = 0` or `accountStake = 0`, and `0` when the two rates are
equal; the strict sign properties hold for `validatorStake > 0` provided
the account's pro-rata share is a positive multiple of 10000 (so the floor
divisions are exact) and both commission products stay below `2^63`. -/
theorem spec_C8_amended_mev_sign (t s v act exp : Nat) :
    (v = 0 → compute_excess_mev_commission t s v act exp = 0)
    ∧ (s = 0 → compute_excess_mev_commission t s v act exp = 0)
    ∧ (act = exp → compute_excess_mev_commission t s v act exp = 0)
    ∧ (0 < v → 10000 ∣ s * t / v → 0 < s * t / v →
        s * t / v * act < I63 → s * t / v * exp < I63 →
        ((act < exp → compute_excess_mev_commission t s v act exp < 0)
          ∧ (exp < act → 0 < compute_excess_mev_commission t s v act exp))) := by
  refine ⟨?_, ?_, ?_, ?_⟩
  · intro hv
    simp [compute_excess_mev_commission, hv]
  · intro hs
    by_cases hv : v = 0
    · simp [compute_excess_mev_commission, hv]
    · subst hs
      have hw0 : wrap64 0 = 0 := wrap64_eq (by norm_num [U64])
      simp only [compute_excess_mev_commission, if_neg hv, Nat.zero_mul,
        Nat.zero_div, hw0]
      exact isub64_self _
  · intro h
    subst h
    by_cases hv : v = 0 <;> simp [compute_excess_mev_commission, hv, isub64_self]
  · intro hv hdvd hpos hact hexp
    obtain ⟨k, hk⟩ := hdvd
    have hk1 : 0 < k := by omega
    have hactq : s * t / v * act / 10000 = k * act := by
      rw [hk, Nat.mul_assoc]
      exact Nat.mul_div_cancel_left _ (by norm_num)
    have hexpq : s * t / v * exp / 10000 = k * exp := by
      rw [hk, Nat.mul_assoc]
      exact Nat.mul_div_cancel_left _ (by norm_num)
    have hI63U64 : I63 < U64 := by norm_num [I63, U64]
    constructor
    · intro hlt
      have hx : s * t / v * 1 ≤ s * t / v * exp := Nat.mul_le_mul_left _ (by omega)
      have hshareU : s * t / v < U64 := by omega
      rw [compute_excess_mev_commission_eq t s v act exp hv hshareU hact hexp,
        hactq, hexpq]
      have hlt2 : k * act < k * exp := mul_lt_mul_of_pos_left hlt hk1
      omega
    · intro hlt
      have hx : s * t / v * 1 ≤ s * t / v * act := Nat.mul_le_mul_left _ (by omega)
      have hshareU : s * t / v < U64 := by omega
      rw [compute_excess_mev_commission_eq t s v act exp hv hshareU hact hexp,
        hactq, hexpq]
      have hlt2 : k * exp < k * act := mul_lt_mul_of_pos_left hlt hk1
      omega

/-- **C8 witness**: the amended theorem applied at the unit-test input
`(1_000_000, 500_000, 1_000_000, 300, 500)` (share `500_000`, a positive
multiple of 10000), and at a zero-validator-stake input. -/
theorem spec_C8_amended_mev_sign_witness :
    compute_excess_mev_commission 1000000 500000 1000000 300 500 < 0 ∧
    compute_excess_mev_commission 1000000 500000 0 300 500 = 0 :=
  ⟨((spec_C8_amended_mev_sign 1000000 500000 1000000 300 500).2.2.2 (by norm_num)
      (by norm_num) (by norm_num) (by norm_num [I63]) (by norm_num [I63])).1
      (by norm_num),
    (spec_C8_amended_mev_sign 1000000 500000 0 300 500).1 rfl⟩

/-- **C6**: `fetch_pye_account_active_stake` rejects every call with
`targetEpoch ≠ currentEpoch - 1`; when the target is right it returns
`Ok(0)` — never an error — on an `AccountNotFound` RPC response for the
primary stake account, and propagates an error on every other fetch
failure of the primary account. (`currentEpoch` ranges over `u64` values
`≥ 1`; the source computes `current_epoch - 1` in `u64`.) -/
theorem spec_C6_active_stake_not_found_and_epoch_guard
    (env : RpcEnv) (sk tk : Pubkey) (t c : Nat) (hc1 : 1 ≤ c) (hcU : c < U64) :
    (t ≠ c - 1 →
      fetch_pye_account_active_stake env sk tk t c =
        .error "Unsupported target epoch delta")
    ∧ (t = c - 1 →
        (∀ msg, env.getAccount sk = .error (.rpcResponseError msg) →
          strHasPrefixStr "AccountNotFound" msg = true →
          fetch_pye_account_active_stake env sk tk t c = .ok 0)
        ∧ (∀ msg, env.getAccount sk = .error (.rpcResponseError msg) →
          strHasPrefixStr "AccountNotFound" msg = false →
          fetch_pye_account_active_stake env sk tk t c =
            .error "Failed to fetch StakeAccount")
        ∧ (env.getAccount sk = .error .otherRpcError →
          fetch_pye_account_active_stake env sk tk t c =
            .error "Failed to fetch StakeAccount")
        ∧ (env.getAccount sk = .error .otherKind →
          fetch_pye_account_active_stake env sk tk t c =
            .error "Failed to fetch StakeAccount")) := by
  have hw : wsub64 c 1 = c - 1 := wsub64_eq hc1 hcU
  constructor
  · intro h
    simp only [fetch_pye_account_active_stake, hw, if_pos h]
  · intro ht
    have hguard : ¬ (t ≠ wsub64 c 1) := by rw [hw]; omega
    refine ⟨?_, ?_, ?_, ?_⟩
    · intro msg hacc hpre
      simp only [fetch_pye_account_active_stake, if_neg hguard, hacc, hpre, if_true]
    · intro msg hacc hpre
      simp only [fetch_pye_account_active_stake, if_neg hguard, hacc, hpre,
        Bool.false_eq_true, if_false]
    · intro hacc
      simp only [fetch_pye_account_active_stake, if_neg hguard, hacc]
    · intro hacc
      simp only [fetch_pye_account_active_stake, if_neg hguard, hacc]

/-- A ledger environment in which the primary stake account does not
exist (the RPC answers with an `AccountNotFound` response error). -/
def envAccountMissing : RpcEnv where
  getAccount := fun _ => .error (.rpcResponseError "AccountNotFound: test account")
  getInflationReward := fun _ _ => .error ()
  stakeHistoryOk := false

/-- **C6 witness**: in `envAccountMissing` with `currentEpoch = 10`, the
call with `targetEpoch = 9` returns `Ok(0)` and the call with
`targetEpoch = 7` is rejected. -/
theorem spec_C6_active_stake_not_found_and_epoch_guard_witness :
    fetch_pye_account_active_stake envAccountMissing 1 0 9 10 = .ok 0 ∧
    fetch_pye_account_active_stake envAccountMissing 1 0 7 10 =
      .error "Unsupported target epoch delta" :=
  ⟨((spec_C6_active_stake_not_found_and_epoch_guard envAccountMissing 1 0 9 10
      (by norm_num) (by norm_num [U64])).2 (by norm_num)).1
      "AccountNotFound: test account" rfl (by decide),
    (spec_C6_active_stake_not_found_and_epoch_guard envAccountMissing 1 0 7 10
      (by norm_num) (by norm_num [U64])).1 (by norm_num)⟩

/-- The net-of-reward stake figure of `ActiveStakeResolver` step 4
(`active_stake.rs:115-125` and `:146-156`): `active - R` when
`active >= R`, else the (wrapping) `post_balance - R` fallback, reading
`(R, post_balance)` from an optional inflation-reward record
(`(0, 0)` when absent). -/
def stake_net_of_reward (act : StakeActivation) (rec : Option RpcInflationReward) : Nat :=
  let ir := match rec with
    | some x => (x.amount, x.post_balance)
    | none => (0, 0)
  if act.active ≥ ir.1 then act.active - ir.1 else wsub64 ir.2 ir.1

/-- A ledger environment in which the primary stake account resolves
cleanly but the transient stake account does not exist: the RPC answers
the transient fetch with an `AccountNotFound` response error. -/
def envTransientMissing : RpcEnv where
  getAccount := fun k =>
    if k = 1 then .ok ⟨1000, .ok ⟨true, some 0, fun _ => ⟨500, 0, 0⟩⟩⟩
    else .error (.rpcResponseError "AccountNotFound: transient")
  getInflationReward := fun _ _ => .ok [none]
  stakeHistoryOk := true

/-- **C7 counterexample**: the claim says the transient contribution
repeats steps 1–4 independently — in particular a not-found transient
account contributes `0`. In `envTransientMissing` the primary account
alone resolves to `500`, so the claim demands `Ok(500)` for the call with
transient key `2`; the code instead propagates an error for the
not-found transient account. -/
theorem spec_C7_counterexample :
    fetch_pye_account_active_stake envTransientMissing 1 2 9 10 =
      .error "Failed to fetch Transient StakeAccount" ∧
    fetch_pye_account_active_stake envTransientMissing 1 0 9 10 = .ok 500 :=
  ⟨rfl, rfl⟩

/-- **C7 (amended)**: when a transient stake-account key is set
(non-sentinel), the code fetches and resolves the transient account —
any fetch failure, not-found included, is an error rather than a `0`
contribution — but performs the reward subtraction for the transient
account with the inflation-reward record fetched for the PRIMARY
account's key (`active_stake.rs:139-140`), not the transient's own
record; the result is the (wrapping `u64`) sum of the primary and
transient net-of-reward figures, both read against the primary record. -/
theorem spec_C7_amended_transient_uses_primary_record
    (env : RpcEnv) (sk tk : Pubkey) (t c : Nat)
    (hc1 : 1 ≤ c) (hcU : c < U64) (ht : t = c - 1) (htk : tk ≠ 0)
    (acct : Account) (st : StakeStateV2) (tacct : Account) (tst : StakeStateV2)
    (rec : Option RpcInflationReward) (rest : List (Option RpcInflationReward))
    (act tact : StakeActivation)
    (hacc : env.getAccount sk = .ok acct) (hst : acct.stakeState = .ok st)
    (hrew : env.getInflationReward sk t = .ok (rec :: rest))
    (hfse : fetch_stake_for_epoch env acct st t = .ok act)
    (htacc : env.getAccount tk = .ok tacct) (htst : tacct.stakeState = .ok tst)
    (htfse : fetch_stake_for_epoch env tacct tst t = .ok tact) :
    fetch_pye_account_active_stake env sk tk t c =
      .ok (wrap64 (stake_net_of_reward act rec + stake_net_of_reward tact rec)) := by
  have hw : wsub64 c 1 = c - 1 := wsub64_eq hc1 hcU
  have hguard : ¬ (t ≠ wsub64 c 1) := by rw [hw]; omega
  simp only [fetch_pye_account_active_stake, if_neg hguard, hacc, hst, hrew, hfse,
    htacc, htst, htfse, if_pos htk, stake_net_of_reward]

/-- The primary and transient accounts of the all-success environment. -/
def primaryAccount : Account :=
  ⟨1000, .ok ⟨true, some 0, fun _ => ⟨500, 0, 0⟩⟩⟩

/-- The transient account of the all-success environment. -/
def transientAccount : Account :=
  ⟨800, .ok ⟨true, some 0, fun _ => ⟨300, 0, 0⟩⟩⟩

/-- The primary account's inflation-reward record (amount 50). -/
def primaryReward : Option RpcInflationReward := some ⟨50, 950, some 10⟩

/-- The transient account's own inflation-reward record (amount 20),
present in the environment but — per the source — never consulted. -/
def transientReward : Option RpcInflationReward := some ⟨20, 780, some 10⟩

/-- A ledger environment in which both accounts resolve cleanly and the
two keys carry distinct inflation-reward records. -/
def envTransientBoth : RpcEnv where
  getAccount := fun k => if k = 1 then .ok primaryAccount else .ok transientAccount
  getInflationReward := fun k _ =>
    if k = 1 then .ok [primaryReward] else .ok [transientReward]
  stakeHistoryOk := true

/-- **C7 witness**: the amended theorem applied in `envTransientBoth`:
primary `500 - 50 = 450`, transient `300 - 50 = 250` (subtracting the
primary record's 50, not the transient record's 20), total `700`. -/
theorem spec_C7_amended_transient_uses_primary_record_witness :
    fetch_pye_account_active_stake envTransientBoth 1 2 9 10 = .ok 700 := by
  have h := spec_C7_amended_transient_uses_primary_record envTransientBoth 1 2 9 10
    (by norm_num) (by norm_num [U64]) (by norm_num) (by norm_num)
    primaryAccount ⟨true, some 0, fun _ => ⟨500, 0, 0⟩⟩
    transientAccount ⟨true, some 0, fun _ => ⟨300, 0, 0⟩⟩
    primaryReward [] ⟨.active, 500, 500⟩ ⟨.active, 300, 500⟩
    rfl rfl rfl rfl rfl rfl rfl
  rw [h]
  rfl

/-- Panic-aware model of `get_excess_inflation_reward`
(`inflation_rewards.rs:24-55`): identical to `get_excess_inflation_reward`
except that `none` models a Rust panic (process abort). The panic arises
when a fetched record reports `commission = 100`: the source then divides
by `100 - commission_rate = 0` inside `compute_excess_inflation_commission`
(`inflation_rewards.rs:18`), which panics in every build profile. -/
def get_excess_inflation_reward_panicking (env : RpcEnv) (address : Pubkey)
    (target_epoch : Nat) (reward_commissions : RewardCommissions) :
    Option (Except String Int) :=
  match env.getInflationReward address target_epoch with
  | .error _ => some (.error "Failed to fetch inflation reward")
  | .ok inflation_rewards =>
    match inflation_rewards with
    | [] => some (.error "No inflation rewards found")
    | first :: _ =>
      match first with
      | some reward =>
        match reward.commission with
        | none => some (.error "Commission data missing")
        | some commission_rate =>
          if wsub64 100 commission_rate = 0 then none
          else
            some (.ok (compute_excess_inflation_commission reward.amount
              commission_rate reward_commissions.inflation_bps))
      | none => some (.ok 0)

/-- Panic-aware model of `calculate_excess_inflation_reward`
(`inflation_rewards.rs:57-106`): `none` models a Rust panic in either
per-account computation (the primary one is evaluated first, as in the
source); otherwise each `Err` degrades to a 0 contribution and the result
is the `i64` sum. -/
def calculate_excess_inflation_reward_panicking (env : RpcEnv)
    (stake_pubkey transient_pubkey : Pubkey) (target_epoch : Nat)
    (reward_commissions : RewardCommissions) : Option Int :=
  match get_excess_inflation_reward_panicking env stake_pubkey target_epoch
      reward_commissions with
  | none => none
  | some excess_stake_result =>
    if transient_pubkey ≠ (0 : Pubkey) then
      match get_excess_inflation_reward_panicking env transient_pubkey target_epoch
          reward_commissions with
      | none => none
      | some excess_transient_result =>
        some (iadd64
          (match excess_stake_result with | .ok amount => amount | .error _ => 0)
          (match excess_transient_result with | .ok amount => amount | .error _ => 0))
    else
      some (iadd64
        (match excess_stake_result with | .ok amount => amount | .error _ => 0) 0)

/-- On a non-panicking run the panic-aware per-account computation agrees
with the totalized `get_excess_inflation_reward`. -/
theorem get_excess_inflation_reward_panicking_some (env : RpcEnv) (a : Pubkey)
    (t : Nat) (rc : RewardCommissions) (r : Except String Int)
    (h : get_excess_inflation_reward_panicking env a t rc = some r) :
    r = get_excess_inflation_reward env a t rc := by
  unfold get_excess_inflation_reward_panicking at h
  unfold get_excess_inflation_reward
  cases hfetch : env.getInflationReward a t with
  | error e =>
    simp only [hfetch, Option.some.injEq] at h
    exact h.symm
  | ok l =>
    simp only [hfetch] at h ⊢
    cases l with
    | nil =>
      simp only [Option.some.injEq] at h
      exact h.symm
    | cons first rest =>
      cases first with
      | none =>
        simp only [Option.some.injEq] at h
        exact h.symm
      | some reward =>
        cases hc : reward.commission with
        | none =>
          simp only [hc, Option.some.injEq] at h ⊢
          exact h.symm
        | some commission_rate =>
          simp only [hc] at h ⊢
          by_cases hz : wsub64 100 commission_rate = 0
          · rw [if_pos hz] at h
            cases h
          · rw [if_neg hz] at h
            simp only [Option.some.injEq] at h
            exact h.symm

/-- A ledger environment whose inflation-reward record reports a
commission of 100, the value at which the source's division panics. -/
def envCommission100 : RpcEnv where
  getAccount := fun _ => .error .otherKind
  getInflationReward := fun _ _ => .ok [some ⟨5, 100, some 100⟩]
  stakeHistoryOk := true

/-- **C10 counterexample**: the claim quantifies over every input, but at
a record reporting `commission = 100` the source panics on the division
by `100 - 100 = 0` (`inflation_rewards.rs:18`) instead of converting the
failure into a 0 contribution — the process aborts and no sum is
returned. The panic-aware model returns `none` there, while the
totalized model (Lean `x / 0 = 0`) fabricates the value `-5`, which is
what the original universally quantified statement relied on. -/
theorem spec_C10_counterexample :
    calculate_excess_inflation_reward_panicking envCommission100 1 0 9
      ⟨1000, 0, 0⟩ = none ∧
    calculate_excess_inflation_reward envCommission100 1 0 9 ⟨1000, 0, 0⟩ = -5 :=
  ⟨rfl, by decide⟩

/-- **C10 (amended)**: `calculate_excess_inflation_reward` never returns
an `Err` (its signature is an infallible `i64`), but it can panic: a
consulted record reporting `commission = 100` aborts the process via the
division by zero. Whenever the call returns at all, every fetch or
compute failure has been converted into a 0 contribution and the
returned value is the `i64` sum of the primary and the transient
contribution, the transient contribution being 0 when the transient key
is the sentinel `Pubkey::default()`. -/
theorem spec_C10_amended_inflation_error_degradation (env : RpcEnv)
    (sk tk : Pubkey) (t : Nat) (rc : RewardCommissions) :
    (∀ res : Int,
      calculate_excess_inflation_reward_panicking env sk tk t rc = some res →
      res = iadd64 ((get_excess_inflation_reward env sk t rc).toOption.getD 0)
        (if tk = 0 then 0
          else (get_excess_inflation_reward env tk t rc).toOption.getD 0))
    ∧ (∀ (amount pb : Nat) (rest : List (Option RpcInflationReward)),
      env.getInflationReward sk t = .ok (some ⟨amount, pb, some 100⟩ :: rest) →
      calculate_excess_inflation_reward_panicking env sk tk t rc = none) := by
  constructor
  · intro res h
    unfold calculate_excess_inflation_reward_panicking at h
    cases h1 : get_excess_inflation_reward_panicking env sk t rc with
    | none =>
      rw [h1] at h
      cases h
    | some r1 =>
      simp only [h1] at h
      have hr1 : r1 = get_excess_inflation_reward env sk t rc :=
        get_excess_inflation_reward_panicking_some env sk t rc r1 h1
      by_cases htk : tk = 0
      · rw [if_neg (show ¬ tk ≠ 0 from fun hh => hh htk)] at h
        simp only [Option.some.injEq] at h
        rw [← h, if_pos htk, ← hr1]
        cases r1 <;> simp [Except.toOption]
      · rw [if_pos htk] at h
        cases h2 : get_excess_inflation_reward_panicking env tk t rc with
        | none =>
          rw [h2] at h
          cases h
        | some r2 =>
          simp only [h2, Option.some.injEq] at h
          have hr2 : r2 = get_excess_inflation_reward env tk t rc :=
            get_excess_inflation_reward_panicking_some env tk t rc r2 h2
          rw [← h, if_neg htk, ← hr1, ← hr2]
          cases r1 <;> cases r2 <;> simp [Except.toOption]
  · intro amount pb rest hrec
    unfold calculate_excess_inflation_reward_panicking
    have hget : get_excess_inflation_reward_panicking env sk t rc = none := by
      unfold get_excess_inflation_reward_panicking
      rw [hrec]
      rfl
    rw [hget]

/-- **C10 witness**: the amended theorem applied in `envTransientBoth`
(commission 10, no panic): the returned value is the degraded sum; and in
`envCommission100`, where the primary record reports commission 100, the
call panics. -/
theorem spec_C10_amended_inflation_error_degradation_witness :
    ((calculate_excess_inflation_reward_panicking envTransientBoth 1 0 9
        ⟨1000, 0, 0⟩).getD 99 =
      iadd64 ((get_excess_inflation_reward envTransientBoth 1 9
          ⟨1000, 0, 0⟩).toOption.getD 0)
        (if (0 : Pubkey) = 0 then 0
          else (get_excess_inflation_reward envTransientBoth 0 9
            ⟨1000, 0, 0⟩).toOption.getD 0)) ∧
    calculate_excess_inflation_reward_panicking envCommission100 3 0 9
      ⟨1000, 0, 0⟩ = none :=
  ⟨by
    rw [(spec_C10_amended_inflation_error_degradation envTransientBoth 1 0 9
      ⟨1000, 0, 0⟩).1 ((calculate_excess_inflation_reward_panicking envTransientBoth
        1 0 9 ⟨1000, 0, 0⟩).getD 99) rfl],
    (spec_C10_amended_inflation_error_degradation envCommission100 3 0 9
      ⟨1000, 0, 0⟩).2 5 100 [] rfl⟩

/-! ## Step lemmas for the per-slot retry loop -/

theorem fetch_slot_fee_ok (fetchRaw : Nat → RawClientResult UiConfirmedBlock)
    (slot : Nat) (hist : SlotHistoryModel) (node : String) (attempts : Nat)
    (block : UiConfirmedBlock)
    (hok : get_block (fetchRaw (attempts + 1)) slot hist = .ok block) :
    fetch_slot_fee fetchRaw slot hist node attempts =
      .ok (some (block_fee_total block node)) := by
  rw [fetch_slot_fee, hok]

theorem fetch_slot_fee_skip (fetchRaw : Nat → RawClientResult UiConfirmedBlock)
    (slot : Nat) (hist : SlotHistoryModel) (node : String) (attempts : Nat)
    (hsk : get_block (fetchRaw (attempts + 1)) slot hist = .error .skippedBlock) :
    fetch_slot_fee fetchRaw slot hist node attempts = .ok none := by
  rw [fetch_slot_fee, hsk]

theorem fetch_slot_fee_retry (fetchRaw : Nat → RawClientResult UiConfirmedBlock)
    (slot : Nat) (hist : SlotHistoryModel) (node : String) (attempts : Nat)
    (e : PriorityFeeKeeperError)
    (he : get_block (fetchRaw (attempts + 1)) slot hist = .error e)
    (hne : e ≠ .skippedBlock) (hlt : attempts + 1 < 5) :
    fetch_slot_fee fetchRaw slot hist node attempts =
      fetch_slot_fee fetchRaw slot hist node (attempts + 1) := by
  conv_lhs => rw [fetch_slot_fee]
  rw [he]
  cases e <;> first
    | exact absurd rfl hne
    | rw [dif_neg (by omega)]

theorem fetch_slot_fee_exhaust (fetchRaw : Nat → RawClientResult UiConfirmedBlock)
    (slot : Nat) (hist : SlotHistoryModel) (node : String) (attempts : Nat)
    (e : PriorityFeeKeeperError)
    (he : get_block (fetchRaw (attempts + 1)) slot hist = .error e)
    (hne : e ≠ .skippedBlock) (hge : 5 ≤ attempts + 1) :
    fetch_slot_fee fetchRaw slot hist node attempts =
      .error "Failed to fetch block" := by
  rw [fetch_slot_fee, he]
  cases e <;> first
    | exact absurd rfl hne
    | rw [dif_pos hge]

/-- A slot whose `get_block` translation fails with the same
non-`SkippedBlock` error on every one of the five attempts resolves to a
hard failure. -/
theorem fetch_slot_fee_all_failed (fetchRaw : Nat → RawClientResult UiConfirmedBlock)
    (slot : Nat) (hist : SlotHistoryModel) (node : String)
    (e : PriorityFeeKeeperError) (hne : e ≠ .skippedBlock)
    (hgb : ∀ a, 1 ≤ a → a ≤ 5 → get_block (fetchRaw a) slot hist = .error e) :
    fetch_slot_fee fetchRaw slot hist node 0 = .error "Failed to fetch block" := by
  rw [fetch_slot_fee_retry fetchRaw slot hist node 0 e (hgb 1 (by omega) (by omega))
    hne (by omega)]
  rw [fetch_slot_fee_retry fetchRaw slot hist node 1 e (hgb 2 (by omega) (by omega))
    hne (by omega)]
  rw [fetch_slot_fee_retry fetchRaw slot hist node 2 e (hgb 3 (by omega) (by omega))
    hne (by omega)]
  rw [fetch_slot_fee_retry fetchRaw slot hist node 3 e (hgb 4 (by omega) (by omega))
    hne (by omega)]
  exact fetch_slot_fee_exhaust fetchRaw slot hist node 4 e (hgb 5 (by omega) (by omega))
    hne (by omega)

theorem block_fee_fold_error (tl : List (Except String (Option Nat))) (e : String) :
    tl.foldl block_fee_fold_step (.error e) = .error e := by
  induction tl with
  | nil => rfl
  | cons hd tl ih =>
    rw [List.foldl_cons]
    cases hd <;> exact ih

theorem aggregate_block_fees_error (results : List (Except String (Option Nat)))
    (msg : String) (hmem : .error msg ∈ results) :
    ∃ m, aggregate_block_fees results = .error m := by
  suffices h : ∀ (l : List (Except String (Option Nat))) (acc : Except String Nat),
      .error msg ∈ l → ∃ m, l.foldl block_fee_fold_step acc = .error m by
    exact h results (.ok 0) hmem
  intro l
  induction l with
  | nil => intro acc h; cases h
  | cons hd tl ih =>
    intro acc hmem2
    rw [List.foldl_cons]
    rcases List.mem_cons.mp hmem2 with heq | htl
    · subst heq
      cases acc with
      | ok a => exact ⟨msg, block_fee_fold_error tl msg⟩
      | error e => exact ⟨e, block_fee_fold_error tl e⟩
    · exact ih (block_fee_fold_step acc hd) htl

/-- Raw per-attempt oracle for the C5 counterexample: the first fetch
reports the slot skipped, the second returns the block with a fee reward
of 7 lamports for the node. -/
def cexRawFuture : Nat → RawClientResult UiConfirmedBlock :=
  fun attempt =>
    if attempt = 1 then .rpcResponseError "Slot 10 was skipped"
    else .ok ⟨some [⟨"node", 7, some .fee⟩]⟩

/-- **C5 counterexample**: the claim says a skipped-reporting fetch whose
skip-history check answers future-slot "fails fatally with no retry". In
the source `SlotInFuture` falls into the generic retry arm
(`block_rewards.rs:118-141` treats every non-`SkippedBlock` error alike),
so with the skip history answering `future` on the first attempt the slot
is retried and here succeeds on the second attempt with fee 7 — it
neither fails nor stops retrying. -/
theorem spec_C5_counterexample :
    fetch_slot_fee cexRawFuture 10 ⟨fun _ => .future⟩ "node" 0 = .ok (some 7) := by
  have h1 : get_block (cexRawFuture 1) 10 ⟨fun _ => .future⟩ =
      .error (.slotInFuture 10) := rfl
  have h2 : get_block (cexRawFuture 2) 10 ⟨fun _ => .future⟩ =
      .ok ⟨some [⟨"node", 7, some .fee⟩]⟩ := rfl
  rw [fetch_slot_fee_retry cexRawFuture 10 ⟨fun _ => .future⟩ "node" 0
    (.slotInFuture 10) h1 (by decide) (by omega)]
  rw [fetch_slot_fee_ok cexRawFuture 10 ⟨fun _ => .future⟩ "node" 1
    ⟨some [⟨"node", 7, some .fee⟩]⟩ h2]
  rfl

/-- **C5 (amended)**: per-slot fault differentiation. A fetch reporting
skipped with skip-history answering not-found resolves to a `0`
contribution (`none`) with zero retries — the result is fixed by the
first attempt alone. A fetch reporting skipped with skip-history
answering future-slot is NOT immediately fatal: it is retried like any
other transient error up to the 5-attempt bound and then fails the slot.
A fetch reporting skipped with skip-history answering found/too-old is
likewise retried to the bound and then fails the slot. Any slot failure
fails the whole aggregation. -/
theorem spec_C5_amended_slot_fault_differentiation
    (fetchRaw : Nat → RawClientResult UiConfirmedBlock) (slot : Nat)
    (hist : SlotHistoryModel) (node : String) (msg : String) :
    (fetchRaw 1 = .rpcResponseError msg → slotSkippedMatch msg = true →
      hist.check slot = .notFound →
      fetch_slot_fee fetchRaw slot hist node 0 = .ok none)
    ∧ (hist.check slot = .future →
      (∀ a, 1 ≤ a → a ≤ 5 →
        ∃ m, fetchRaw a = .rpcResponseError m ∧ slotSkippedMatch m = true) →
      fetch_slot_fee fetchRaw slot hist node 0 = .error "Failed to fetch block")
    ∧ ((hist.check slot = .tooOld ∨ hist.check slot = .found) →
      (∀ a, 1 ≤ a → a ≤ 5 →
        ∃ m, fetchRaw a = .rpcResponseError m ∧ slotSkippedMatch m = true) →
      fetch_slot_fee fetchRaw slot hist node 0 = .error "Failed to fetch block")
    ∧ (∀ (results : List (Except String (Option Nat))) (m : String),
      .error m ∈ results → ∃ m2, aggregate_block_fees results = .error m2) := by
  refine ⟨?_, ?_, ?_, fun results m hm => aggregate_block_fees_error results m hm⟩
  · intro hraw hm hchk
    have hgb : get_block (fetchRaw 1) slot hist = .error .skippedBlock := by
      rw [hraw]
      simp only [get_block, hm, if_true, hchk]
    exact fetch_slot_fee_skip fetchRaw slot hist node 0 hgb
  · intro hchk hall
    have hgb : ∀ a, 1 ≤ a → a ≤ 5 →
        get_block (fetchRaw a) slot hist = .error (.slotInFuture slot) := by
      intro a h1 h5
      obtain ⟨m, hraw, hm⟩ := hall a h1 h5
      rw [hraw]
      simp only [get_block, hm, if_true, hchk]
    exact fetch_slot_fee_all_failed fetchRaw slot hist node _ (by simp) hgb
  · intro hchk hall
    have hgb : ∀ a, 1 ≤ a → a ≤ 5 →
        get_block (fetchRaw a) slot hist = .error (.inSlotHistoryNotOnRpc slot) := by
      intro a h1 h5
      obtain ⟨m, hraw, hm⟩ := hall a h1 h5
      rw [hraw]
      rcases hchk with hchk | hchk <;> simp only [get_block, hm, if_true, hchk]
    exact fetch_slot_fee_all_failed fetchRaw slot hist node _ (by simp) hgb

/-- **C5 witness**: the amended theorem applied to a concrete oracle:
a genuine skip (first attempt reports skipped, history says not-found)
resolves to `none` without consulting any later attempt, and a slot that
reports skipped on every attempt while the history says found retries to
the bound and fails. -/
theorem spec_C5_amended_slot_fault_differentiation_witness :
    fetch_slot_fee (fun _ => .rpcResponseError "Slot 42 was skipped") 42
      ⟨fun _ => .notFound⟩ "node" 0 = .ok none ∧
    fetch_slot_fee (fun _ => .rpcResponseError "Slot 42 was skipped") 42
      ⟨fun _ => .found⟩ "node" 0 = .error "Failed to fetch block" :=
  ⟨(spec_C5_amended_slot_fault_differentiation
      (fun _ => .rpcResponseError "Slot 42 was skipped") 42 ⟨fun _ => .notFound⟩
      "node" "Slot 42 was skipped").1 rfl (by decide) rfl,
    ((spec_C5_amended_slot_fault_differentiation
      (fun _ => .rpcResponseError "Slot 42 was skipped") 42 ⟨fun _ => .found⟩
      "node" "Slot 42 was skipped").2.2.1 (Or.inr rfl)
      (fun a _ _ => ⟨"Slot 42 was skipped", rfl, by decide⟩))⟩

/-- A request issued by the one-shot settle gate implies a strictly
positive excess, and the request carries exactly that excess. -/
theorem oneshot_settle_gate_pos
    (transfer : Pubkey → SoloValidatorPyeAccount → Nat → Except Unit Unit)
    (confirm : Bool) (pk : Pubkey) (pa : SoloValidatorPyeAccount) (e : Int)
    (d : Bool) (r : Pubkey × Nat)
    (h : (oneshot_settle_gate transfer confirm pk pa e d).1 = some r) :
    0 < e ∧ r.2 = e.toNat := by
  rw [oneshot_settle_gate] at h
  by_cases hle : e ≤ 0
  · rw [if_pos hle] at h
    simp at h
  · rw [if_neg hle] at h
    by_cases hd : d = true
    · rw [if_pos hd] at h
      simp at h
    · rw [if_neg hd] at h
      by_cases hcf : confirm = true
      · rw [if_pos hcf] at h
        cases htr : transfer pk pa e.toNat with
        | ok u =>
          simp only [htr, Option.some.injEq] at h
          exact ⟨by omega, by rw [← h]⟩
        | error u =>
          simp only [htr, Option.some.injEq] at h
          exact ⟨by omega, by rw [← h]⟩
      · rw [if_neg hcf] at h
        simp at h


/-- **C1**: a settlement transfer is requested only on a strictly positive
summed excess. In the manager loop, every issued transfer request
corresponds to an account whose summed excess resolved to a strictly
positive value and carries exactly that amount — contrapositively, an
account whose summed excess is `≤ 0` never has a transfer requested in
that cycle. In the one-shot command, whose settle-or-skip tail
(`transfer_excess_rewards.rs:103-137`) is `oneshot_settle_gate` (reached
through `oneshot_reconcile` from `handle_transfer_excess_rewards`), any
issued request likewise implies a strictly positive summed excess and
carries exactly that amount. -/
theorem spec_C1_settlement_gate (env : RpcEnv)
    (transfer : Pubkey → SoloValidatorPyeAccount → Nat → Except Unit Unit)
    (mev_data : ValidatorInfo) (total t c : Nat) (dry : Bool)
    (accounts : List (Pubkey × SoloValidatorPyeAccount)) :
    (∀ req ∈ (manager_process_accounts env transfer mev_data total t c dry accounts).1,
      ∃ e : Int, manager_account_excess env mev_data total req.2.1 t c = .ok e ∧
        0 < e ∧ req.2.2 = e.toNat)
    ∧ (∀ (tr : Pubkey → SoloValidatorPyeAccount → Nat → Except Unit Unit)
      (cf : Bool) (pk : Pubkey) (pa : SoloValidatorPyeAccount) (e : Int) (d : Bool)
      (r : Pubkey × Nat),
      (oneshot_settle_gate tr cf pk pa e d).1 = some r → 0 < e ∧ r.2 = e.toNat) := by
  constructor
  · induction accounts with
    | nil =>
      intro req hreq
      simp only [manager_process_accounts, List.not_mem_nil] at hreq
    | cons head rest ih =>
      obtain ⟨pk, acct⟩ := head
      intro req hreq
      rw [manager_process_accounts] at hreq
      cases hma : manager_account_excess env mev_data total acct t c with
      | error e =>
        simp only [hma, List.not_mem_nil] at hreq
      | ok excess =>
        simp only [hma] at hreq
        by_cases hle : excess ≤ 0
        · simp only [if_pos hle] at hreq
          exact ih req hreq
        · simp only [if_neg hle] at hreq
          by_cases hdry : dry = true
          · simp only [if_pos hdry] at hreq
            exact ih req hreq
          · simp only [if_neg hdry] at hreq
            cases htr : transfer pk acct excess.toNat with
            | error u =>
              simp only [htr, List.mem_singleton] at hreq
              subst hreq
              exact ⟨excess, hma, by omega, rfl⟩
            | ok u =>
              simp only [htr, List.mem_cons] at hreq
              rcases hreq with hreq | hreq
              · subst hreq
                exact ⟨excess, hma, by omega, rfl⟩
              · exact ih req hreq
  · exact fun tr cf pk pa e d r h => oneshot_settle_gate_pos tr cf pk pa e d r h

/-- A ledger environment for a concrete manager cycle: the stake account
with key 3 resolves cleanly; every other account fetch fails with a
non-`AccountNotFound` client error. -/
def cycleRpcEnv : RpcEnv where
  getAccount := fun k =>
    if k = 3 then .ok ⟨1000, .ok ⟨true, some 0, fun _ => ⟨500, 0, 0⟩⟩⟩
    else .error .otherKind
  getInflationReward := fun _ _ => .ok [none]
  stakeHistoryOk := true

/-- The MEV record of the concrete cycle: not running the relay, with a
validator active stake of 100. -/
def cycleMev : ValidatorInfo := ⟨"vote", 0, 0, false, 100⟩

/-- A settlement executor that always succeeds. -/
def cycleTransfer : Pubkey → SoloValidatorPyeAccount → Nat → Except Unit Unit :=
  fun _ _ _ => .ok ()

/-- An account whose stake account (key 1) fails to fetch. -/
def cycleAcct1 : SoloValidatorPyeAccount := ⟨1, 0, ⟨0, 0, 0⟩, "vote"⟩

/-- An account whose stake account (key 3) resolves to 500 and whose
summed excess in the cycle is 5000. -/
def cycleAcct2 : SoloValidatorPyeAccount := ⟨3, 0, ⟨0, 0, 0⟩, "vote"⟩

/-- **C4 counterexample**: the claim says a failure resolving one
account's stake skips that account alone and does not abort the cycle for
the others. In the concrete cycle, account 2 alone yields a transfer
request of 5000; with account 1 (whose stake fetch fails) listed first,
the loop aborts with the error (`?` at
`validator_pye_account_manager.rs:173-180`) and account 2 is never
processed — no request is issued at all. -/
theorem spec_C4_counterexample :
    manager_process_accounts cycleRpcEnv cycleTransfer cycleMev 1000 9 10 false
      [(1, cycleAcct1), (3, cycleAcct2)] = ([], some "Failed to fetch StakeAccount") ∧
    manager_process_accounts cycleRpcEnv cycleTransfer cycleMev 1000 9 10 false
      [(3, cycleAcct2)] = ([(3, cycleAcct2, 5000)], none) :=
  ⟨rfl, rfl⟩

/-- **C4 (amended)**: in the always-on manager loop, a failure resolving
one account's stake aborts the cycle — the error propagates and neither
that account nor any account after it is processed; and a failure of the
validator-wide block-reward aggregation aborts the cycle before any
account is processed. The degrade-to-zero behavior for an aggregation
failure exists in `calculate_excess_block_reward` — used by the one-shot
transfer command — while the manager calls `calculate_block_rewards`
directly under `?` (`validator_pye_account_manager.rs:160-167`). -/
theorem spec_C4_amended_cycle_abort (menv : ManagerEnv) (vote : String)
    (ei : EpochInfo) (dry : Bool)
    (accounts rest : List (Pubkey × SoloValidatorPyeAccount))
    (pk : Pubkey) (acct : SoloValidatorPyeAccount) (msg : String) :
    (∀ (mev : ValidatorInfo) (total t c : Nat),
      fetch_pye_account_active_stake menv.rpc acct.stake_account
        acct.transient_stake_account t c = .error msg →
      manager_process_accounts menv.rpc menv.transfer mev total t c dry
        ((pk, acct) :: rest) = ([], some msg))
    ∧ (∀ mev : ValidatorInfo, menv.mev_result = .ok mev →
      calculate_block_rewards menv.benv vote ei = .error msg →
      manager_run_cycle menv vote ei dry accounts = ([], some msg))
    ∧ (∀ (stake vstake : Nat) (rc : RewardCommissions),
      calculate_block_rewards menv.benv vote ei = .error msg →
      calculate_excess_block_reward menv.benv vote ei stake vstake rc = .ok 0) := by
  refine ⟨?_, ?_, ?_⟩
  · intro mev total t c hst
    have hma : manager_account_excess menv.rpc mev total acct t c = .error msg := by
      simp only [manager_account_excess, hst]
    rw [manager_process_accounts]
    simp only [hma]
  · intro mev hmev hcb
    simp only [manager_run_cycle, hmev, hcb]
  · intro stake vstake rc hcb
    by_cases hv : vstake = 0
    · simp only [calculate_excess_block_reward, if_pos hv]
    · simp only [calculate_excess_block_reward, if_neg hv, hcb]

/-- The epoch snapshot of the concrete cycle. -/
def cycleEpochInfo : EpochInfo := ⟨10, 20, 0, 10⟩

/-- A block-reward environment whose vote-account fetch fails, so the
validator-wide aggregation fails. -/
def cycleBlockEnvErr : BlockEnv where
  vote_accounts := .error ()
  leader_schedule := fun _ _ => .error ()
  slot_history := .error ()
  fetchRaw := fun _ _ => .otherClientError

/-- The manager environment of the concrete cycle. -/
def cycleManagerEnv : ManagerEnv where
  rpc := cycleRpcEnv
  benv := cycleBlockEnvErr
  mev_result := .ok cycleMev
  transfer := cycleTransfer

/-- **C4 witness**: the amended theorem applied to the concrete cycle:
the stake-fetch failure of account 1 aborts the single-account loop with
the error; the vote-account fetch failure aborts the whole cycle before
any account runs; and `calculate_excess_block_reward` degrades the same
aggregation failure to `Ok(0)`. -/
theorem spec_C4_amended_cycle_abort_witness :
    manager_process_accounts cycleManagerEnv.rpc cycleManagerEnv.transfer cycleMev
      1000 9 10 false [(1, cycleAcct1)] = ([], some "Failed to fetch StakeAccount") ∧
    manager_run_cycle cycleManagerEnv "vote" cycleEpochInfo false
      [(1, cycleAcct1), (3, cycleAcct2)] = ([], some "Failed to fetch vote accounts") ∧
    calculate_excess_block_reward cycleManagerEnv.benv "vote" cycleEpochInfo 500 100
      cycleAcct2.reward_commissions = .ok 0 :=
  ⟨(spec_C4_amended_cycle_abort cycleManagerEnv "vote" cycleEpochInfo false [] []
      1 cycleAcct1 "Failed to fetch StakeAccount").1 cycleMev 1000 9 10 rfl,
    (spec_C4_amended_cycle_abort cycleManagerEnv "vote" cycleEpochInfo false
      [(1, cycleAcct1), (3, cycleAcct2)] [] 1 cycleAcct1
      "Failed to fetch vote accounts").2.1 cycleMev rfl rfl,
    (spec_C4_amended_cycle_abort cycleManagerEnv "vote" cycleEpochInfo false [] []
      1 cycleAcct1 "Failed to fetch vote accounts").2.2 500 100
      cycleAcct2.reward_commissions rfl⟩

/-- **C1 witness**: the theorem applied to the concrete cycle (the single
request issued for account 2 carries its positive excess 5000) and to a
concrete settle-gate call with excess 5. -/
theorem spec_C1_settlement_gate_witness :
    (∃ e : Int, manager_account_excess cycleRpcEnv cycleMev 1000 cycleAcct2 9 10 = .ok e ∧
      0 < e ∧ (5000 : Nat) = e.toNat) ∧
    (0 < (5 : Int) ∧ (((1 : Pubkey), (5 : Int).toNat) : Pubkey × Nat).2 = (5 : Int).toNat) :=
  ⟨(spec_C1_settlement_gate cycleRpcEnv cycleTransfer cycleMev 1000 9 10 false
      [(3, cycleAcct2)]).1 (3, cycleAcct2, 5000) (by decide),
    (spec_C1_settlement_gate cycleRpcEnv cycleTransfer cycleMev 1000 9 10 false
      [(3, cycleAcct2)]).2 cycleTransfer true 1 cycleAcct2 5 false (1, 5) rfl⟩

end PyeCli
